import Mathlib

/-!
Verification of the telepresence core: daemon lifecycle management,
bridge supervision, and the workload injection engine.

The Go sources are embedded shallowly: stateful procedures become pure
functions over an explicit environment (the outcomes of RPC calls,
subprocess runs and socket probes) together with an explicit trace of the
externally visible effects they perform. Pure transformations (the
injection engine, version parsing, DNS path construction) are translated
directly.
-/

set_option autoImplicit false

namespace Telepresence

/-! ## Data model for the workload injection engine

The injection engine itself (addAgentToWorkload, undoObjectMods,
undoServiceMods) is exercised by the repository test file but its
implementation is not part of the visible corpus; its definitions below
are therefore modelled from the spec. The sanitize functions are
translated from the test source. -/

/-- Kubernetes object metadata, restricted to the fields the engine and the
sanitize functions touch. Annotations are an association list; lookup finds
the first binding of a key. -/
structure ObjectMeta where
  annots : List (String × String)
  resourceVersion : String
  generation : Int
  creationTimestamp : Nat
  deriving Repr, DecidableEq

/-- A named container port. -/
structure ContainerPort where
  name : String
  containerPort : Nat
  deriving Repr, DecidableEq

/-- A container of a pod template, restricted to the fields the engine and
the sanitize functions touch. -/
structure Container where
  name : String
  image : String
  ports : List ContainerPort
  env : List (String × String)
  terminationMessagePath : String
  terminationMessagePolicy : String
  imagePullPolicy : String
  deriving Repr, DecidableEq

/-- A pod template: the list of containers. -/
structure PodTemplateSpec where
  containers : List Container
  deriving Repr, DecidableEq

/-- The three workload kinds the engine handles uniformly. -/
inductive WorkloadKind
  | deployment
  | replicaSet
  | statefulSet
  deriving Repr, DecidableEq

/-- A workload: one of Deployment, ReplicaSet or StatefulSet, viewed through
the shared capability of having metadata and a pod template. -/
structure Workload where
  kind : WorkloadKind
  metadata : ObjectMeta
  podTemplate : PodTemplateSpec
  deriving Repr, DecidableEq

/-- A service, restricted to the fields the engine touches: metadata and the
target port its single relevant port forwards to. -/
structure Service where
  metadata : ObjectMeta
  targetPort : String
  deriving Repr, DecidableEq

/-- Conventional name of the injected sidecar container. -/
def agentContainerName : String := "traffic-agent"

/-- Well-known annotation key recording mutation provenance. -/
def agentAnnotationKey : String := "telepresence.getambassador.io/actions"

/-- Name of the port the sidecar listens on. -/
def agentPortName : String := "tp-agent"

/-- Number of the port the sidecar listens on. -/
def agentPortNumber : Nat := 9900

/-- First binding of a key in an annotation list. -/
def getAnn (k : String) : List (String × String) → Option String
  | [] => none
  | (k₁, v) :: rest => if k₁ = k then some v else getAnn k rest

/-- Record a binding for a key in an annotation list. -/
def setAnn (k v : String) (l : List (String × String)) : List (String × String) :=
  (k, v) :: l

/-- Remove the first binding of a key from an annotation list. -/
def delAnn (k : String) : List (String × String) → List (String × String)
  | [] => []
  | (k₁, v) :: rest => if k₁ = k then rest else (k₁, v) :: delAnn k rest

/-- True when the pod template already holds a container with the
conventional sidecar name. -/
def hasAgentContainer (pt : PodTemplateSpec) : Bool :=
  pt.containers.any (fun c => c.name == agentContainerName)

/-- True when the container exposes a port with the given name. -/
def portsMatching (pn : String) (c : Container) : Bool :=
  c.ports.any (fun p => p.name == pn)

/-- The port name injection resolves against: the given port name, or the
service target port when the given name is empty. -/
def refPortOf (portName : String) (svc : Service) : String :=
  if portName == "" then svc.targetPort else portName

/-- Number of the container port with the resolved name. -/
def appPortOf (refPort : String) (c : Container) : Nat :=
  match c.ports.find? (fun p => p.name == refPort) with
  | some p => p.containerPort
  | none => 0

/-- The sidecar container: conventional name, the given agent image, the
fixed agent listening port, and an environment entry directing the proxy at
the original application port. -/
def mkSidecar (agentImage : String) (appPort : Nat) : Container :=
  { name := agentContainerName
    image := agentImage
    ports := [⟨agentPortName, agentPortNumber⟩]
    env := [("APP_PORT", toString appPort)]
    terminationMessagePath := ""
    terminationMessagePolicy := ""
    imagePullPolicy := "" }

/-- Modelled from the spec: the workload half of the mutation performed by
addAgentToWorkload, whose implementation is not in the visible corpus. The
sidecar is appended to the pod template and the resolved port name is
recorded under the well-known annotation key. -/
def injectWorkload (portName agentImage : String) (w : Workload) (svc : Service)
    (appC : Container) : Workload :=
  { w with
    metadata := { w.metadata with
      annots := setAnn agentAnnotationKey (refPortOf portName svc) w.metadata.annots }
    podTemplate := ⟨w.podTemplate.containers ++
      [mkSidecar agentImage (appPortOf (refPortOf portName svc) appC)]⟩ }

/-- Modelled from the spec: the service half of the mutation performed by
addAgentToWorkload. The original target port is saved under the well-known
annotation key so undo can restore it exactly, and the target port is
rewritten to the sidecar listening port. -/
def injectService (svc : Service) : Service :=
  { svc with
    metadata := { svc.metadata with
      annots := setAnn agentAnnotationKey svc.targetPort svc.metadata.annots }
    targetPort := agentPortName }

/-- Modelled from the spec: addAgentToWorkload, whose implementation is not
in the visible corpus (only its tests are). If the sidecar is already
present, detected by its conventional container name, the inputs are
returned unchanged. Otherwise the unique container exposing the resolved
port is located (zero or several matches is a distinct error), the sidecar
is appended, the service target port is rewritten to the sidecar port, and
the original values are recorded in the well-known annotation. -/
def addAgentToWorkload (portName agentImage : String) (w : Workload) (svc : Service) :
    Except String (Workload × Option Service) :=
  if hasAgentContainer w.podTemplate then
    .ok (w, some svc)
  else
    match w.podTemplate.containers.filter (portsMatching (refPortOf portName svc)) with
    | [appC] =>
        .ok (injectWorkload portName agentImage w svc appC, some (injectService svc))
    | _ => .error "found no single container matching the targeted port"

/-- Modelled from the spec: undoObjectMods, whose implementation is not in
the visible corpus. When no sidecar is present this is a no-op. When the
sidecar is present but the provenance annotation is missing the state is
inconsistent and the operation fails loudly. Otherwise the sidecar
containers and the provenance annotation are removed. -/
def undoObjectMods (w : Workload) : Except String Workload :=
  if hasAgentContainer w.podTemplate then
    match getAnn agentAnnotationKey w.metadata.annots with
    | none => .error "agent container present but provenance record is missing"
    | some _ =>
        .ok { w with
          metadata := { w.metadata with
            annots := delAnn agentAnnotationKey w.metadata.annots }
          podTemplate := ⟨w.podTemplate.containers.filter
            (fun c => !(c.name == agentContainerName))⟩ }
  else .ok w

/-- Modelled from the spec: undoServiceMods, whose implementation is not in
the visible corpus. When no provenance annotation is present this is a
no-op; otherwise the target port is restored exactly from the recorded
value and the annotation is removed. -/
def undoServiceMods (svc : Service) : Except String Service :=
  match getAnn agentAnnotationKey svc.metadata.annots with
  | none => .ok svc
  | some orig =>
      .ok { svc with
        metadata := { svc.metadata with
          annots := delAnn agentAnnotationKey svc.metadata.annots }
        targetPort := orig }

/-- Translated from the test source: zero the fields a cluster assigns by
itself on one container. -/
def sanitizeContainer (c : Container) : Container :=
  { c with
    terminationMessagePath := ""
    terminationMessagePolicy := ""
    imagePullPolicy := "" }

/-- Translated from the test source sanitizeWorkload: clear resource
version, generation and creation timestamp, and the defaulted container
fields of the pod template. -/
def sanitizeWorkload (w : Workload) : Workload :=
  { w with
    metadata := { w.metadata with
      resourceVersion := ""
      generation := 0
      creationTimestamp := 0 }
    podTemplate := ⟨w.podTemplate.containers.map sanitizeContainer⟩ }

/-- Translated from the test source sanitizeService: clear resource
version, generation and creation timestamp. -/
def sanitizeService (svc : Service) : Service :=
  { svc with
    metadata := { svc.metadata with
      resourceVersion := ""
      generation := 0
      creationTimestamp := 0 } }

/-! ### Helper lemmas for the injection engine -/

theorem getAnn_setAnn (k v : String) (l : List (String × String)) :
    getAnn k (setAnn k v l) = some v := by
  simp [getAnn, setAnn]

theorem delAnn_setAnn (k v : String) (l : List (String × String)) :
    delAnn k (setAnn k v l) = l := by
  simp [delAnn, setAnn]

theorem filter_keep_of_no_agent (cs : List Container)
    (h : cs.any (fun c => c.name == agentContainerName) = false) :
    cs.filter (fun c => !(c.name == agentContainerName)) = cs := by
  induction cs with
  | nil => rfl
  | cons c rest ih =>
      simp only [List.any_cons, Bool.or_eq_false_iff] at h
      simp [List.filter_cons, h.1, ih h.2]

theorem hasAgent_injectWorkload (pn img : String) (w : Workload) (svc : Service)
    (appC : Container) :
    hasAgentContainer (injectWorkload pn img w svc appC).podTemplate = true := by
  simp [hasAgentContainer, injectWorkload, mkSidecar]

theorem undoObjectMods_injectWorkload (pn img : String) (w : Workload) (svc : Service)
    (appC : Container) (hclean : hasAgentContainer w.podTemplate = false) :
    undoObjectMods (injectWorkload pn img w svc appC) = .ok w := by
  rcases w with ⟨kind, ⟨annots, rv, gen, ct⟩, ⟨cs⟩⟩
  simp only [hasAgentContainer] at hclean
  simp [undoObjectMods, injectWorkload, mkSidecar, hasAgentContainer, getAnn_setAnn,
    delAnn_setAnn, List.filter_append, filter_keep_of_no_agent cs hclean]

theorem undoServiceMods_injectService (svc : Service) :
    undoServiceMods (injectService svc) = .ok svc := by
  rcases svc with ⟨⟨annots, rv, gen, ct⟩, tp⟩
  simp [undoServiceMods, injectService, getAnn_setAnn, delAnn_setAnn]

/-! ### Injection engine claims -/

/-- C1: for every valid workload (Deployment, ReplicaSet or StatefulSet,
viewed through the shared pod-template capability) and associated service
accepted by addAgentToWorkload — a clean workload, not yet holding the
sidecar — applying addAgentToWorkload and then undoObjectMods on the
returned workload and undoServiceMods on the returned service reproduces
the original workload and service exactly, up to the fields explicitly
excluded from comparison, which sanitizeWorkload and sanitizeService clear
(resource version, generation, creation timestamp). -/
theorem addAgent_undo_exact_inverse (portName agentImage : String)
    (w wi : Workload) (svc svci : Service)
    (hclean : hasAgentContainer w.podTemplate = false)
    (h : addAgentToWorkload portName agentImage w svc = .ok (wi, some svci)) :
    ∃ wu su, undoObjectMods wi = .ok wu ∧ undoServiceMods svci = .ok su ∧
      sanitizeWorkload wu = sanitizeWorkload w ∧
      sanitizeService su = sanitizeService svc := by
  simp only [addAgentToWorkload, hclean, Bool.false_eq_true, if_false] at h
  split at h
  · rename_i appC heq
    simp only [Except.ok.injEq, Prod.mk.injEq, Option.some.injEq] at h
    obtain ⟨h1, h2⟩ := h
    subst h1
    subst h2
    exact ⟨w, svc, undoObjectMods_injectWorkload portName agentImage w svc appC hclean,
      undoServiceMods_injectService svc, rfl, rfl⟩
  · exact Except.noConfusion h

/-- C2: for every valid (workload, service, portName) input accepted by
addAgentToWorkload, applying addAgentToWorkload a second time equals
applying it once: on the second application the sidecar is detected as
already present through its conventional container name, and the inputs
are returned with no further change. -/
theorem addAgent_idempotent (portName agentImage : String)
    (w wi : Workload) (svc svci : Service)
    (h : addAgentToWorkload portName agentImage w svc = .ok (wi, some svci)) :
    hasAgentContainer wi.podTemplate = true ∧
    addAgentToWorkload portName agentImage wi svci = .ok (wi, some svci) := by
  by_cases hg : hasAgentContainer w.podTemplate = true
  · simp only [addAgentToWorkload, hg, if_true, Except.ok.injEq, Prod.mk.injEq,
      Option.some.injEq] at h
    obtain ⟨h1, h2⟩ := h
    subst h1
    subst h2
    exact ⟨hg, by simp [addAgentToWorkload, hg]⟩
  · rw [Bool.not_eq_true] at hg
    simp only [addAgentToWorkload, hg, Bool.false_eq_true, if_false] at h
    split at h
    · rename_i appC heq
      simp only [Except.ok.injEq, Prod.mk.injEq, Option.some.injEq] at h
      obtain ⟨h1, h2⟩ := h
      subst h1
      subst h2
      refine ⟨hasAgent_injectWorkload portName agentImage w svc appC, ?_⟩
      simp [addAgentToWorkload, hasAgent_injectWorkload]
    · exact Except.noConfusion h

/-- A one-container application workload used to instantiate the engine
claims on concrete input. -/
def sampleContainer : Container :=
  { name := "app"
    image := "app:2.3"
    ports := [⟨"http", 8080⟩]
    env := []
    terminationMessagePath := "/dev/termination-log"
    terminationMessagePolicy := "File"
    imagePullPolicy := "Always" }

/-- A concrete deployment wrapping the sample container. -/
def sampleWorkload : Workload :=
  { kind := .deployment
    metadata := ⟨[("team", "blue")], "rv-17", 3, 42⟩
    podTemplate := ⟨[sampleContainer]⟩ }

/-- A concrete service targeting the sample container port. -/
def sampleService : Service :=
  { metadata := ⟨[], "rv-9", 1, 40⟩
    targetPort := "http" }

/-- The sample workload after injection. -/
def sampleWorkloadInj : Workload :=
  injectWorkload "http" "agent:1.0" sampleWorkload sampleService sampleContainer

/-- The sample service after injection. -/
def sampleServiceInj : Service :=
  injectService sampleService

theorem addAgent_undo_exact_inverse_witness :
    ∃ wu su, undoObjectMods sampleWorkloadInj = .ok wu ∧
      undoServiceMods sampleServiceInj = .ok su ∧
      sanitizeWorkload wu = sanitizeWorkload sampleWorkload ∧
      sanitizeService su = sanitizeService sampleService :=
  addAgent_undo_exact_inverse "http" "agent:1.0" sampleWorkload sampleWorkloadInj
    sampleService sampleServiceInj rfl rfl

theorem addAgent_idempotent_witness :
    hasAgentContainer sampleWorkloadInj.podTemplate = true ∧
    addAgentToWorkload "http" "agent:1.0" sampleWorkloadInj sampleServiceInj =
      .ok (sampleWorkloadInj, some sampleServiceInj) :=
  addAgent_idempotent "http" "agent:1.0" sampleWorkload sampleWorkloadInj
    sampleService sampleServiceInj rfl

/-! ## Daemon lifecycle manager

Translated from pkg/client/cli/daemon_state.go. The ambient world — socket
existence, RPC outcomes, subprocess launches, socket polling — is passed in
as an explicit environment, and every externally visible effect is recorded
in an explicit trace. -/

/-- The context a gRPC call is issued under. The quit call is issued under
the background context because the command context may already be
cancelled. -/
inductive CtxKind
  | background
  | command
  deriving Repr, DecidableEq

/-- The daemonState fields the lifecycle logic reads and writes: whether the
transport handle (conn) and the RPC client built on it (grpcClient) are
present. -/
structure DaemonState where
  conn : Bool
  grpcClient : Bool
  deriving Repr, DecidableEq

/-- isConnected: connectivity is judged purely by liveness of the local
transport handle. -/
def isConnected (ds : DaemonState) : Bool :=
  ds.conn

/-- Outcomes of the ambient world consumed by DeactivateState: whether the
daemon socket currently exists, the result of the Quit RPC, and the result
of waiting for the socket to vanish. -/
structure DaemonEnv where
  socketExists : Bool
  quitErr : Option String
  vanishErr : Option String
  deriving Repr, DecidableEq

/-- Effects performed by DeactivateState: each Quit call with the context it
was issued under, whether the local handle was dropped, and each
socket-vanish poll with the timeout in seconds it was given. -/
structure DeactivateTrace where
  quitCalls : List CtxKind
  disconnected : Bool
  vanishPolls : List Nat
  deriving Repr, DecidableEq

/-- Translated from DeactivateState: a no-op when not connected; otherwise
Quit is sent under the background context when the daemon socket exists,
the local handles are dropped unconditionally, and when no error has
occurred the socket-vanish poll runs with a five second timeout. Returns
the reported error, the new state, and the effect trace. -/
def DeactivateState (env : DaemonEnv) (ds : DaemonState) :
    Option String × DaemonState × DeactivateTrace :=
  if isConnected ds then
    match (if env.socketExists then env.quitErr else none) with
    | none =>
        (env.vanishErr, ⟨false, false⟩,
          ⟨if env.socketExists then [.background] else [], true, [5]⟩)
    | some e =>
        (some e, ⟨false, false⟩,
          ⟨if env.socketExists then [.background] else [], true, []⟩)
  else
    (none, ds, ⟨[], false, []⟩)

/-- Steps EnsureState performs on the world, in order. -/
inductive EnsureEvent
  | quitLegacy (performed : Bool)
  | launchDaemon
  | pollSocketAppear (timeoutSecs : Nat)
  | connectTransport
  deriving Repr, DecidableEq

/-- Outcomes of the ambient world consumed by EnsureState: whether the
legacy socket exists, the result of launching the daemon as root, whether
the well-known socket appears within the poll bound, the result of dialing
the socket, and the configured log file name. -/
structure EnsureEnv where
  legacySocketExists : Bool
  runAsRootErr : Option String
  socketAppears : Bool
  connectErr : Option String
  logfile : String

/-- Translated from EnsureState: an immediate no-op when already connected;
otherwise the legacy daemon is quit (when its socket exists), the daemon
process is launched, the well-known socket is polled for up to ten seconds
— failure producing a diagnostic naming the log file — and finally the
transport is opened and the RPC client constructed. Returns (whether a
daemon was started, error), the new state, and the ordered event trace. -/
def EnsureState (env : EnsureEnv) (ds : DaemonState) :
    (Bool × Option String) × DaemonState × List EnsureEvent :=
  if isConnected ds then
    ((false, none), ds, [])
  else
    match env.runAsRootErr with
    | some e =>
        ((false, some ("failed to launch the server: " ++ e)), ds,
          [.quitLegacy env.legacySocketExists, .launchDaemon])
    | none =>
        if env.socketAppears then
          match env.connectErr with
          | none =>
              ((true, none), ⟨true, true⟩,
                [.quitLegacy env.legacySocketExists, .launchDaemon,
                  .pollSocketAppear 10, .connectTransport])
          | some e =>
              ((false, some e), ⟨false, ds.grpcClient⟩,
                [.quitLegacy env.legacySocketExists, .launchDaemon,
                  .pollSocketAppear 10, .connectTransport])
        else
          ((false,
              some ("daemon service did not start (see " ++ env.logfile
                ++ " for more info)")), ds,
            [.quitLegacy env.legacySocketExists, .launchDaemon, .pollSocketAppear 10])

/-! ### Daemon lifecycle claims -/

/-- C3 counterexample: the claim states that whenever a connection exists,
DeactivateState sends Quit and then polls for the socket to disappear; but
on a connected state where the socket exists and the Quit RPC fails, the
code performs no socket-vanish poll at all, and on a connected state where
the socket does not exist, no Quit RPC is sent. -/
theorem deactivateState_claim_counterexample :
    isConnected ⟨true, true⟩ = true ∧
    (DeactivateState ⟨true, some "rpc error: quit failed", none⟩ ⟨true, true⟩).2.2.vanishPolls
      = [] ∧
    (DeactivateState ⟨false, none, none⟩ ⟨true, true⟩).2.2.quitCalls = [] :=
  ⟨rfl, rfl, rfl⟩

/-- C3 (amended): DeactivateState is a no-op success when no connection
exists; otherwise it sends the Quit RPC under the background, non-cancelable
context only when the daemon socket currently exists, drops the local
transport handle regardless of the RPC outcome, and polls for the socket to
disappear with the bounded five second timeout only when no error has
occurred so far (the Quit succeeded or was skipped); a Quit error is
returned without polling. -/
theorem deactivateState_behavior (env : DaemonEnv) (ds : DaemonState) :
    (isConnected ds = false → DeactivateState env ds = (none, ds, ⟨[], false, []⟩)) ∧
    (isConnected ds = true →
      (DeactivateState env ds).2.2.quitCalls
          = (if env.socketExists then [CtxKind.background] else []) ∧
      (DeactivateState env ds).2.2.disconnected = true ∧
      (DeactivateState env ds).2.1 = ⟨false, false⟩ ∧
      (DeactivateState env ds).2.2.vanishPolls
          = (if env.socketExists = false ∨ env.quitErr = none then [5] else []) ∧
      (DeactivateState env ds).1
          = (if env.socketExists then
               (match env.quitErr with
                | some e => some e
                | none => env.vanishErr)
             else env.vanishErr)) := by
  constructor
  · intro hc
    simp [DeactivateState, hc]
  · intro hc
    cases hs : env.socketExists <;> cases hq : env.quitErr <;>
      simp [DeactivateState, isConnected, hc, hs, hq] <;>
      simp_all [isConnected]

theorem deactivateState_behavior_witness :
    (DeactivateState ⟨true, none, none⟩ ⟨true, true⟩).2.2.quitCalls
        = (if (true : Bool) then [CtxKind.background] else []) ∧
    (DeactivateState ⟨true, none, none⟩ ⟨true, true⟩).2.2.disconnected = true :=
  ⟨((deactivateState_behavior ⟨true, none, none⟩ ⟨true, true⟩).2 rfl).1,
   ((deactivateState_behavior ⟨true, none, none⟩ ⟨true, true⟩).2 rfl).2.1⟩

/-- C10: DeactivateState always leaves the state disconnected and is
idempotent. Under the code invariant that the RPC client only exists while
the transport handle does, after any call — error or not — both fields are
cleared, isConnected is false, and a second call under any environment
returns nil success with an empty effect trace: no Quit RPC and no socket
polling. -/
theorem deactivateState_idempotent (env envB : DaemonEnv) (ds : DaemonState)
    (hinv : ds.grpcClient = true → ds.conn = true) :
    isConnected (DeactivateState env ds).2.1 = false ∧
    (DeactivateState env ds).2.1.conn = false ∧
    (DeactivateState env ds).2.1.grpcClient = false ∧
    DeactivateState envB (DeactivateState env ds).2.1
      = (none, (DeactivateState env ds).2.1, ⟨[], false, []⟩) := by
  by_cases hc : ds.conn = true
  · have h1 : (DeactivateState env ds).2.1 = ⟨false, false⟩ := by
      cases hs : env.socketExists <;> cases hq : env.quitErr <;>
        simp [DeactivateState, isConnected, hc, hs, hq]
    rw [h1]
    exact ⟨rfl, rfl, rfl, rfl⟩
  · rw [Bool.not_eq_true] at hc
    have hg : ds.grpcClient = false := by
      cases hgc : ds.grpcClient
      · rfl
      · exact absurd (hinv hgc) (by simp [hc])
    have h1 : DeactivateState env ds = (none, ds, ⟨[], false, []⟩) := by
      simp [DeactivateState, isConnected, hc]
    rw [h1]
    exact ⟨hc, hc, hg, by simp [DeactivateState, isConnected, hc]⟩

theorem deactivateState_idempotent_witness :
    isConnected (DeactivateState ⟨true, some "boom", none⟩ ⟨true, true⟩).2.1 = false ∧
    (DeactivateState ⟨true, some "boom", none⟩ ⟨true, true⟩).2.1.conn = false ∧
    (DeactivateState ⟨true, some "boom", none⟩ ⟨true, true⟩).2.1.grpcClient = false ∧
    DeactivateState ⟨false, none, none⟩
        (DeactivateState ⟨true, some "boom", none⟩ ⟨true, true⟩).2.1
      = (none, (DeactivateState ⟨true, some "boom", none⟩ ⟨true, true⟩).2.1,
          ⟨[], false, []⟩) :=
  deactivateState_idempotent ⟨true, some "boom", none⟩ ⟨false, none, none⟩
    ⟨true, true⟩ (fun _ => rfl)

/-- C8: EnsureState returns immediately with no side effect when a
connection already exists; otherwise it first quits any legacy daemon, then
launches the daemon process, then polls for the well-known socket for up to
ten seconds; when the socket never appears it fails with a diagnostic
naming the log file, and when it appears the transport is opened and the
RPC client constructed. -/
theorem ensureState_behavior (env : EnsureEnv) (ds : DaemonState) :
    (isConnected ds = true → EnsureState env ds = ((false, none), ds, [])) ∧
    (isConnected ds = false → env.runAsRootErr = none → env.socketAppears = false →
      EnsureState env ds =
        ((false, some ("daemon service did not start (see " ++ env.logfile
            ++ " for more info)")), ds,
          [.quitLegacy env.legacySocketExists, .launchDaemon, .pollSocketAppear 10])) ∧
    (isConnected ds = false → env.runAsRootErr = none → env.socketAppears = true →
      (EnsureState env ds).2.2
          = [.quitLegacy env.legacySocketExists, .launchDaemon,
              .pollSocketAppear 10, .connectTransport] ∧
      (env.connectErr = none →
        EnsureState env ds
          = ((true, none), ⟨true, true⟩,
              [.quitLegacy env.legacySocketExists, .launchDaemon,
                .pollSocketAppear 10, .connectTransport]))) := by
  refine ⟨?_, ?_, ?_⟩
  · intro hc
    simp [EnsureState, hc]
  · intro hc hr hs
    simp only [isConnected] at hc
    simp [EnsureState, isConnected, hc, hr, hs]
  · intro hc hr hs
    simp only [isConnected] at hc
    constructor
    · cases he : env.connectErr <;>
        simp [EnsureState, isConnected, hc, hr, hs, he]
    · intro he
      simp [EnsureState, isConnected, hc, hr, hs, he]

theorem ensureState_behavior_witness :
    EnsureState ⟨true, none, false, none, "daemon.log"⟩ ⟨false, false⟩ =
      ((false, some ("daemon service did not start (see " ++ "daemon.log"
          ++ " for more info)")), ⟨false, false⟩,
        [.quitLegacy true, .launchDaemon, .pollSocketAppear 10]) :=
  (ensureState_behavior ⟨true, none, false, none, "daemon.log"⟩ ⟨false, false⟩).2.1
    rfl rfl rfl

/-! ## Bridge supervisor

Translated from pkg/client/connector/bridge.go. Subprocess and RPC
outcomes are passed in as an explicit environment; the arguments handed to
the external calls are returned so the theorems can speak about them. -/

/-- Worker name for the DNS bridge task. -/
def K8sBridgeWorker : String := "K8S"

/-- Worker name for the tunnel task. -/
def K8sSSHWorker : String := "SSH"

/-- Bridge configuration: the target cluster namespace and the negotiated
remote tunnel port. -/
structure Bridge where
  sshPort : Int
  ns : String
  deriving Repr, DecidableEq

/-- Value of the digit characters of a decimal numeral. -/
def digitsVal (l : List Char) : Nat :=
  l.foldl (fun a c => 10 * a + (c.toNat - 48)) 0

/-- Largest value representable in a 64-bit Go int. -/
def int64Max : Int := 9223372036854775807

/-- Smallest value representable in a 64-bit Go int. -/
def int64Min : Int := -9223372036854775808

/-- Translated from the Go standard strconv.Atoi as used by checkKubectl:
an optional single leading sign followed by one or more decimal digits;
anything else — in particular a trailing non-digit such as the plus of
"18+" — is a parse error, and so is a numeral whose value falls outside
the 64-bit int range (the ErrRange path). -/
def goAtoi (s : String) : Option Int :=
  match s.data with
  | [] => none
  | c :: rest =>
      let (neg, digits) :=
        if c = '+' then (false, rest)
        else if c = '-' then (true, rest)
        else (false, c :: rest)
      if digits.isEmpty then none
      else if digits.all Char.isDigit then
        let v : Int := if neg then -(digitsVal digits : Int) else (digitsVal digits : Int)
        if v < int64Min ∨ int64Max < v then none else some v
      else none

/-- The client version block parsed out of the kubectl JSON output. -/
structure ClientVersion where
  major : String
  minor : String
  deriving Repr, DecidableEq

/-- Outcomes of the ambient world consumed by checkKubectl: whether running
kubectl version succeeded, and the result of unmarshalling its JSON output
into the client version block. -/
structure KubectlEnv where
  cmdSucceeds : Bool
  parsed : Option ClientVersion
  deriving Repr, DecidableEq

/-- The remediation message wrapped around every preflight failure. -/
def kubectlErr : String := "kubectl version 1.10 or greater is required"

/-- Translated from checkKubectl: the version command must run, its JSON
output must unmarshal, both version fields must parse as integers, and the
parsed version must be major 1 with minor at least 10. -/
def checkKubectl (env : KubectlEnv) : Except String Unit :=
  if env.cmdSucceeds = false then .error kubectlErr
  else
    match env.parsed with
    | none => .error kubectlErr
    | some cv =>
        match goAtoi cv.major with
        | none => .error kubectlErr
        | some mj =>
            match goAtoi cv.minor with
            | none => .error kubectlErr
            | some mn =>
                if mj ≠ 1 ∨ mn < 10 then
                  .error (kubectlErr ++ " (found " ++ toString mj ++ "."
                    ++ toString mn ++ ")")
                else .ok ()

/-- Translated from bridge start: the kubectl preflight runs first and any
failure is returned with no task spawned; on success both supervised tasks
are handed to the group, tunnel task first. Returns the result and the
names of the spawned workers in order. -/
def bridgeStart (env : KubectlEnv) : Except String Unit × List String :=
  match checkKubectl env with
  | .error e => (.error e, [])
  | .ok _ => (.ok (), [K8sSSHWorker, K8sBridgeWorker])

/-- Outcomes of the ambient world consumed by bridgeWorker: the result of
the SetDnsSearchPath RPC, and whether the worker context is cancelled at
the moment the result is observed. -/
structure RpcEnv where
  setDnsErr : Option String
  ctxCancelled : Bool
  deriving Repr, DecidableEq

/-- Translated from bridgeWorker: builds the DNS search path list for the
bridge namespace, issues the SetDnsSearchPath RPC with it, suppresses a
failure entirely when the context is cancelled, and otherwise wraps it.
Returns the path list handed to the RPC and the reported error. -/
def bridgeWorker (br : Bridge) (env : RpcEnv) : List String × Option String :=
  (([br.ns ++ ".svc.cluster.local.", "svc.cluster.local.", "cluster.local.", ""]),
    match env.setDnsErr with
    | none => none
    | some e =>
        if env.ctxCancelled then none
        else some ("error setting up search path: " ++ e))

/-- Outcomes of the ambient world consumed by sshWorker: the result of
running the ssh subprocess, and whether the worker context is cancelled at
the moment the result is observed. -/
structure ExecEnv where
  runErr : Option String
  ctxCancelled : Bool
  deriving Repr, DecidableEq

/-- The fixed ssh argument list built by sshWorker. -/
def sshArgs (br : Bridge) : List String :=
  ["-F", "none", "-C", "-oConnectTimeout=5", "-oStrictHostKeyChecking=no",
   "-oUserKnownHostsFile=/dev/null", "-N", "-oExitOnForwardFailure=yes",
   "-D", "localhost:1080", "-p", toString br.sshPort, "telepresence@localhost"]

/-- Translated from sshWorker: runs the ssh subprocess with the fixed
argument list and suppresses its failure entirely when the context is
cancelled. Returns the argument list and the reported error. -/
def sshWorker (br : Bridge) (env : ExecEnv) : List String × Option String :=
  (sshArgs br,
    match env.runErr with
    | none => none
    | some e => if env.ctxCancelled then none else some e)

/-- Bool test that the second character list occurs somewhere at the head
of the first. -/
def headMatches : List Char → List Char → Bool
  | _, [] => true
  | [], _ :: _ => false
  | c :: cs, d :: ds => c == d && headMatches cs ds

/-- Bool test that the pattern occurs contiguously inside the list. -/
def hasSubL (s pat : List Char) : Bool :=
  match s with
  | [] => pat.isEmpty
  | _ :: rest => headMatches s pat || hasSubL rest pat

/-- Translated from the Go standard strings.Contains: substring
containment. -/
def goContains (s pat : String) : Bool :=
  hasSubL s.data pat.data

/-- What the single TCP probe of the bridge check observes: a dial failure,
a failure reading the first line, or the first line itself. -/
inductive DialOutcome
  | dialFail (e : String)
  | readFail (e : String)
  | line (msg : String)
  deriving Repr, DecidableEq

/-- The ambient world consumed by the bridge check: the outcome of dialing
the local tunnel endpoint, as a function of the dial timeout in seconds it
is given. -/
structure CheckEnv where
  dial : Nat → DialOutcome

/-- Translated from bridge check: dial the local tunnel endpoint with a
fifteen second timeout, read one line, and require the SSH banner; every
failure is reported as false, never as an error. -/
def bridgeCheck (env : CheckEnv) : Bool :=
  match env.dial 15 with
  | .dialFail _ => false
  | .readFail _ => false
  | .line msg => goContains msg "SSH"

/-! ### Bridge supervisor claims -/

/-- C6: bridge start runs the kubectl client-version preflight before
spawning either supervised task, and spawns a task only when the parsed
client version has major exactly 1 and minor at least 10; a failure to run
the version command or to unmarshal or integer-parse the Major and Minor
fields is likewise a hard error returned with no task spawned. -/
theorem bridgeStart_preflight (env : KubectlEnv) :
    ((bridgeStart env).2 ≠ [] ↔ checkKubectl env = .ok ()) ∧
    (checkKubectl env = .ok () ↔
      (env.cmdSucceeds = true ∧ ∃ cv, env.parsed = some cv ∧
        ∃ mj mn, goAtoi cv.major = some mj ∧ goAtoi cv.minor = some mn ∧
          mj = 1 ∧ 10 ≤ mn)) ∧
    (∀ e, checkKubectl env = .error e → bridgeStart env = (.error e, [])) := by
  refine ⟨?_, ?_, ?_⟩
  · cases h : checkKubectl env with
    | error e => simp [bridgeStart, h]
    | ok u => cases u; simp [bridgeStart, h]
  · rcases env with ⟨cmd, parsed⟩
    cases cmd
    · simp [checkKubectl]
    · cases parsed with
      | none => simp [checkKubectl]
      | some cv =>
          cases hmj : goAtoi cv.major with
          | none => simp [checkKubectl, hmj]
          | some mj =>
              cases hmn : goAtoi cv.minor with
              | none => simp [checkKubectl, hmn, hmj]
              | some mn =>
                  have hred : checkKubectl ⟨true, some cv⟩ =
                      (if mj ≠ 1 ∨ mn < 10 then
                        .error (kubectlErr ++ " (found " ++ toString mj ++ "."
                          ++ toString mn ++ ")")
                      else .ok ()) := by
                    simp [checkKubectl, hmj, hmn]
                  rw [hred]
                  constructor
                  · intro h
                    split at h
                    · exact Except.noConfusion h
                    · rename_i hco
                      push_neg at hco
                      exact ⟨rfl, cv, rfl, mj, mn, hmj, hmn, hco.1, by omega⟩
                  · rintro ⟨-, cv', hcv, mj', mn', hmj', hmn', h1, h10⟩
                    obtain rfl : cv = cv' := by
                      injection hcv
                    rw [hmj] at hmj'
                    rw [hmn] at hmn'
                    obtain rfl : mj = mj' := by injection hmj'
                    obtain rfl : mn = mn' := by injection hmn'
                    rw [if_neg]
                    rintro (h | h)
                    · exact h h1
                    · omega
  · intro e h
    simp [bridgeStart, h]

theorem bridgeStart_preflight_witness :
    bridgeStart ⟨true, some ⟨"1", "9"⟩⟩ =
      (.error "kubectl version 1.10 or greater is required (found 1.9)", []) :=
  (bridgeStart_preflight ⟨true, some ⟨"1", "9"⟩⟩).2.2
    "kubectl version 1.10 or greater is required (found 1.9)" rfl

/-- C9: checkKubectl requires the Major and Minor fields to be plain
decimal integer numerals; a minor string carrying a suffix such as "18+",
as some Kubernetes distributions report, fails integer parsing and is
rejected as a precondition failure even though the same numeral without the
suffix parses to a version satisfying major 1 and minor at least 10. -/
theorem checkKubectl_minor_suffix_rejected :
    goAtoi "18+" = none ∧
    checkKubectl ⟨true, some ⟨"1", "18+"⟩⟩ = .error kubectlErr ∧
    goAtoi "18" = some 18 ∧ (10 : Int) ≤ 18 ∧
    checkKubectl ⟨true, some ⟨"1", "18"⟩⟩ = .ok () :=
  ⟨rfl, rfl, rfl, by norm_num, rfl⟩

/-- C5: for every namespace, the DNS task hands SetDnsSearchPath exactly
the four-element ordered list of the namespace-qualified cluster suffix,
the two shorter cluster suffixes, and the empty string, most specific
first and empty string last. -/
theorem bridgeWorker_dns_search_path (br : Bridge) (env : RpcEnv) :
    (bridgeWorker br env).1
        = [br.ns ++ ".svc.cluster.local.", "svc.cluster.local.", "cluster.local.", ""] ∧
    (bridgeWorker br env).1.length = 4 ∧
    (bridgeWorker br env).1.getLast? = some "" :=
  ⟨rfl, rfl, rfl⟩

/-- C4: cancelling a bridge session scope yields no reported error from
either supervised task: every failure of the SetDnsSearchPath RPC or of the
ssh subprocess observed under a cancelled context is returned as success,
while a failure under a non-cancelled context is reported. -/
theorem bridge_cancellation_suppression (br : Bridge) (env : RpcEnv) (eenv : ExecEnv) :
    (env.ctxCancelled = true → (bridgeWorker br env).2 = none) ∧
    (eenv.ctxCancelled = true → (sshWorker br eenv).2 = none) ∧
    (env.ctxCancelled = false → ∀ e, env.setDnsErr = some e →
      (bridgeWorker br env).2 = some ("error setting up search path: " ++ e)) ∧
    (eenv.ctxCancelled = false → ∀ e, eenv.runErr = some e →
      (sshWorker br eenv).2 = some e) := by
  refine ⟨?_, ?_, ?_, ?_⟩
  · intro h
    cases hd : env.setDnsErr <;> simp [bridgeWorker, h, hd]
  · intro h
    cases hr : eenv.runErr <;> simp [sshWorker, h, hr]
  · intro h e he
    simp [bridgeWorker, h, he]
  · intro h e he
    simp [sshWorker, h, he]

/-- A concrete bridge configuration used to instantiate claims. -/
def bridgeSample : Bridge := ⟨8022, "default"⟩

theorem bridge_cancellation_suppression_witness :
    (bridgeWorker bridgeSample ⟨some "rpc failed", true⟩).2 = none ∧
    (sshWorker bridgeSample ⟨some "exit status 1", false⟩).2 = some "exit status 1" :=
  ⟨(bridge_cancellation_suppression bridgeSample ⟨some "rpc failed", true⟩
      ⟨some "exit status 1", false⟩).1 rfl,
   (bridge_cancellation_suppression bridgeSample ⟨some "rpc failed", true⟩
      ⟨some "exit status 1", false⟩).2.2.2 rfl "exit status 1" rfl⟩

/-- C7: the bridge check is a total boolean probe: it returns true exactly
when dialing the local tunnel endpoint under the fifteen second timeout
yields a first line containing the substring SSH, and returns false on
every dial failure, read failure or missing banner. -/
theorem bridgeCheck_banner_probe (env : CheckEnv) :
    bridgeCheck env = true ↔
      ∃ msg, env.dial 15 = .line msg ∧ goContains msg "SSH" = true := by
  cases hd : env.dial 15 with
  | dialFail e => simp [bridgeCheck, hd]
  | readFail e => simp [bridgeCheck, hd]
  | line msg => simp [bridgeCheck, hd]

end Telepresence
